import Mathlib

set_option maxRecDepth 100000

/-
Verification of the `aws_glue_artifact` package (file `aws_glue_artifact/model.py`)
against its natural-language specification.

The file embeds the data model and the operations of the two facade classes
`GlueETLScriptArtifact` and `GluePythonLibArtifact` (and their shared `Base`)
as executable Lean definitions:

* machine bytes are `Nat` values below 256, byte strings are `List Nat`;
* the local filesystem is an explicit association list from paths to nodes,
  threaded through the operations that touch it;
* the external versioned-artifact repository (`versioned.api.Repository`) is a
  configuration record, and its behaviour an explicit `RepoImpl` environment of
  functions returning `Except`, so that error propagation is observable;
* the vendored hashing helper is realised by a full executable SHA-256 over byte
  lists (the vendor module is not part of the sources at hand, so it is modelled
  from the spec, which calls it a content hash, and from the metadata key names,
  which name sha256).
-/

/-
SHA-256 over byte lists (FIPS 180-4), executable.  The 32-bit words are `Nat`
values reduced modulo 2 ^ 32 explicitly.
-/

def w32 (x : Nat) : Nat := x % 4294967296

def rotr32 (n x : Nat) : Nat := w32 ((x >>> n) ||| (x <<< (32 - n)))

def smallSigma0 (x : Nat) : Nat := (rotr32 7 x) ^^^ (rotr32 18 x) ^^^ (x >>> 3)

def smallSigma1 (x : Nat) : Nat := (rotr32 17 x) ^^^ (rotr32 19 x) ^^^ (x >>> 10)

def bigSigma0 (x : Nat) : Nat := (rotr32 2 x) ^^^ (rotr32 13 x) ^^^ (rotr32 22 x)

def bigSigma1 (x : Nat) : Nat := (rotr32 6 x) ^^^ (rotr32 11 x) ^^^ (rotr32 25 x)

def chF (x y z : Nat) : Nat := (x &&& y) ^^^ ((x ^^^ 4294967295) &&& z)

def majF (x y z : Nat) : Nat := (x &&& y) ^^^ (x &&& z) ^^^ (y &&& z)

/-- Big-endian byte rendering of `x` on `n` bytes. -/
def beBytes (n : Nat) (x : Nat) : List Nat :=
  match n with
  | 0 => []
  | k + 1 => beBytes k (x / 256) ++ [x % 256]

/-- Standard SHA-256 padding: append 0x80, zeros, and the 64-bit bit length. -/
def sha256pad (msg : List Nat) : List Nat :=
  let L := msg.length
  let k := (119 - (L % 64)) % 64
  msg ++ [128] ++ List.replicate k 0 ++ beBytes 8 (8 * L)

/-- Group a padded byte list into big-endian 32-bit words. -/
def toWords : List Nat → List Nat
  | a :: b :: c :: d :: rest => (a * 16777216 + b * 65536 + c * 256 + d) :: toWords rest
  | _ => []

/-- Split a byte list into 64-byte blocks; the fuel argument (the list length
suffices, since every step consumes at least one byte) keeps the recursion
structural, so that the definition evaluates inside the kernel. -/
def toBlocksAux : Nat → List Nat → List (List Nat)
  | 0, _ => []
  | _ + 1, [] => []
  | fuel + 1, b :: rest => ((b :: rest).take 64) :: toBlocksAux fuel ((b :: rest).drop 64)

/-- Split a padded message into 64-byte blocks. -/
def toBlocks (l : List Nat) : List (List Nat) := toBlocksAux l.length l

def sha256K : List Nat :=
  [1116352408, 1899447441, 3049323471, 3921009573, 961987163, 1508970993,
   2453635748, 2870763221, 3624381080, 310598401, 607225278, 1426881987,
   1925078388, 2162078206, 2614888103, 3248222580, 3835390401, 4022224774,
   264347078, 604807628, 770255983, 1249150122, 1555081692, 1996064986,
   2554220882, 2821834349, 2952996808, 3210313671, 3336571891, 3584528711,
   113926993, 338241895, 666307205, 773529912, 1294757372, 1396182291,
   1695183700, 1986661051, 2177026350, 2456956037, 2730485921, 2820302411,
   3259730800, 3345764771, 3516065817, 3600352804, 4094571909, 275423344,
   430227734, 506948616, 659060556, 883997877, 958139571, 1322822218,
   1537002063, 1747873779, 1955562222, 2024104815, 2227730452, 2361852424,
   2428436474, 2756734187, 3204031479, 3329325298]

def sha256H0 : List Nat :=
  [1779033703, 3144134277, 1013904242, 2773480762,
   1359893119, 2600822924, 528734635, 1541459225]

/-- Extend the 16 words of a block to the 64-word message schedule. -/
def extendSchedule (w : List Nat) : List Nat :=
  (List.range 48).foldl
    (fun w _ =>
      let n := w.length
      let g : Nat → Nat := fun i => w.getD i 0
      w ++ [w32 (smallSigma1 (g (n - 2)) + g (n - 7) + smallSigma0 (g (n - 15)) + g (n - 16))])
    w

/-- One SHA-256 compression round on the state `[a,b,c,d,e,f,g,h]`. -/
def sha256Round (s : List Nat) (kw : Nat × Nat) : List Nat :=
  let t1 := w32 (s.getD 7 0 + bigSigma1 (s.getD 4 0) +
                 chF (s.getD 4 0) (s.getD 5 0) (s.getD 6 0) + kw.1 + kw.2)
  let t2 := w32 (bigSigma0 (s.getD 0 0) + majF (s.getD 0 0) (s.getD 1 0) (s.getD 2 0))
  [w32 (t1 + t2), s.getD 0 0, s.getD 1 0, s.getD 2 0,
   w32 (s.getD 3 0 + t1), s.getD 4 0, s.getD 5 0, s.getD 6 0]

/-- Compress one 64-byte block into the running hash value. -/
def compressBlock (h : List Nat) (block : List Nat) : List Nat :=
  let w := extendSchedule (toWords block)
  let s := (List.zip sha256K w).foldl sha256Round h
  (List.zip h s).map (fun p => w32 (p.1 + p.2))

def sha256Blocks (h : List Nat) : List (List Nat) → List Nat
  | [] => h
  | b :: rest => sha256Blocks (compressBlock h b) rest

/-- SHA-256 digest (32 bytes) of a byte list. -/
def sha256 (msg : List Nat) : List Nat :=
  ((sha256Blocks sha256H0 (toBlocks (sha256pad msg))).map (beBytes 4)).flatten

def hexChar (n : Nat) : Char := if n < 10 then Char.ofNat (48 + n) else Char.ofNat (87 + n)

def byteHex (b : Nat) : List Char := [hexChar (b / 16), hexChar (b % 16)]

/-- Lowercase hexadecimal SHA-256 digest of a byte list, as `hashlib`'s hexdigest. -/
def sha256Hex (msg : List Nat) : String := String.mk ((sha256 msg).map byteHex).flatten

/- Known-answer tests for the SHA-256 model: the empty message and "abc". -/

example : sha256Hex [] = "e3b0c44298fc1c149afbf4c8996fb92427ae41e4649b934ca495991b7852b855" := by
  decide

example : sha256Hex [97, 98, 99] =
    "ba7816bf8f01cfea414140de5dae2223b00361a396177a9cb410ff61f20015ad" := by
  decide

/-
Local paths.  `pathlib_mate.Path` / `pathlib.Path` values are modelled by an
absoluteness flag plus the list of path components; `Path(...)` applied to a
string parses it (posix convention: a leading "/" makes it absolute), and
`.absolute()` resolves a relative path against the ambient working directory,
which the embedding passes around explicitly as `cwd` (a list of components of
the absolute current directory).
-/

structure LocalPath where
  isAbs : Bool
  parts : List String
  deriving DecidableEq, Repr

/-- Split a character list at "/" separators. -/
def splitSlashAux (cur : List Char) : List Char → List String
  | [] => [String.mk cur.reverse]
  | c :: rest =>
    if c = '/' then String.mk cur.reverse :: splitSlashAux [] rest
    else splitSlashAux (c :: cur) rest

/-- Parse of a path string, as `Path(str)` of `pathlib` (posix convention: a
leading "/" makes the path absolute; empty components collapse). -/
def LocalPath.ofString (s : String) : LocalPath :=
  ⟨(match s.toList with
    | c :: _ => c = '/'
    | [] => false),
   (splitSlashAux [] s.toList).filter (fun x => x ≠ "")⟩

/-- Embedding of `Path(...).absolute()`: a relative path is resolved against
the ambient current working directory `cwd`. -/
def LocalPath.absolute (cwd : List String) (p : LocalPath) : LocalPath :=
  if p.isAbs then p else ⟨true, cwd ++ p.parts⟩

/-- Embedding of `pathlib_mate`'s `.basename` property (last component). -/
def LocalPath.basename (p : LocalPath) : String := p.parts.getLastD ""

/-- Embedding of `.joinpath(s)` for a single component. -/
def LocalPath.joinpath (p : LocalPath) (s : String) : LocalPath := ⟨p.isAbs, p.parts ++ [s]⟩

/-- True when `q` equals `p` or lies below the directory `p`. -/
def LocalPath.isUnder (q p : LocalPath) : Bool :=
  (q.isAbs == p.isAbs) && p.parts.isPrefixOf q.parts

/-- The `PT = Union[str, pathlib.Path, pathlib_mate.Path]` argument type of the
dataclass fields: the caller may hand either a string or a path object. -/
inductive PathLike where
  | str (s : String)
  | path (p : LocalPath)
  deriving DecidableEq, Repr

/-- Coercion done by `Path(value)`: parse a string, keep a path object. -/
def coercePath : PathLike → LocalPath
  | PathLike.str s => LocalPath.ofString s
  | PathLike.path p => p

/-
Python string-keyed dictionaries with string values, as built by the metadata
assembly code, are embedded as association lists looked up by first match.
-/

abbrev Metadata := List (String × String)

/-- First-match lookup in an association list (Python `d[k]` / `k in d`). -/
def alookup (k : String) : Metadata → Option String
  | [] => none
  | e :: rest => if e.1 = k then some e.2 else alookup k rest

/-- The entries of `m` whose key differs from `key`, in order. -/
def dropKey (key : String) : Metadata → Metadata
  | [] => []
  | e :: rest => if e.1 = key then dropKey key rest else e :: dropKey key rest

/-- Embedding of Python `d.update(m)` for the one shape the source builds, a
fresh single-entry dict `d = {key: hash}`: the base entry keeps its first
position but takes the caller's value when the caller's dict has the key, and
the caller's entries with other keys follow in their own order — exactly the
insertion-order semantics of CPython's `dict.update`. -/
def pyUpdateSingle (key hash : String) (m : Metadata) : Metadata :=
  (key, (alookup key m).getD hash) :: dropKey key m

/-
The local filesystem: a flat association list from paths to nodes.  A directory
node carries its (flat) tree of files, each one a name with its byte content;
this is the granularity the repository code needs (a script file, a library
directory, a build directory, a zip file).
-/

inductive FSNode where
  | file (content : List Nat)
  | dir (tree : List (String × List Nat))
  deriving DecidableEq, Repr

abbrev FS := List (LocalPath × FSNode)

def FS.lookup : FS → LocalPath → Option FSNode
  | [], _ => none
  | e :: rest, p => if e.1 = p then some e.2 else FS.lookup rest p

/-- Write the node at path `p` (new entries shadow older ones). -/
def FS.setNode (fs : FS) (p : LocalPath) (n : FSNode) : FS := (p, n) :: fs

/-- Embedding of `pathlib_mate`'s `remove_if_exists()` on a directory: the
directory and everything under it disappear. -/
def FS.removeTree : FS → LocalPath → FS
  | [], _ => []
  | e :: rest, p =>
    if LocalPath.isUnder e.1 p then FS.removeTree rest p
    else e :: FS.removeTree rest p

/-- Embedding of `pathlib_mate`'s `mkdir_if_not_exists()`. -/
def FS.mkdir_if_not_exists (fs : FS) (p : LocalPath) : FS :=
  match FS.lookup fs p with
  | some _ => fs
  | none => FS.setNode fs p (FSNode.dir [])

/-- Embedding of `Path.read_bytes()`: the content of the file at `p`, `none`
when there is no such file (Python raises `OSError` there). -/
def FS.read_bytes (fs : FS) (p : LocalPath) : Option (List Nat) :=
  match FS.lookup fs p with
  | some (FSNode.file c) => some c
  | _ => none

/-
Byte-level helpers for the zip and directory-hash models.
-/

/-- UTF-8-agnostic byte rendering of a name (code points; ASCII in practice). -/
def strBytes (s : String) : List Nat := s.toList.map (fun c => c.toNat)

/-- Lexicographic comparison of names by code points. -/
def charListLe : List Char → List Char → Bool
  | [], _ => true
  | _ :: _, [] => false
  | a :: as, b :: bs =>
    if a.toNat < b.toNat then true
    else if b.toNat < a.toNat then false
    else charListLe as bs

def strLeB (a b : String) : Bool := charListLe a.toList b.toList

def insertSorted (x : String × List Nat) : List (String × List Nat) → List (String × List Nat)
  | [] => [x]
  | e :: rest => if strLeB x.1 e.1 then x :: e :: rest else e :: insertSorted x rest

/-- Directory entries in sorted name order (stable traversal order). -/
def sortTree (t : List (String × List Nat)) : List (String × List Nat) :=
  t.foldr insertSorted []

/-- One archive member: name length, name bytes, content length, content. -/
def encodeEntry (e : String × List Nat) : List Nat :=
  [e.1.length] ++ strBytes e.1 ++ [e.2.length] ++ e.2

/-- Modelled from the spec: the byte content of the zip archive written by
`pathlib_mate`'s `make_zip_archive(dst, include_dir=False)` (the spec only
says a zip archive of the directory is written to the scratch directory).
Faithful to the zip container format in what matters here: the archive starts
with the "PK" magic bytes and frames every member, so the archive bytes are
not the raw concatenation of the member contents. -/
def zipBytes (t : List (String × List Nat)) : List Nat :=
  80 :: 75 :: ((sortTree t).map encodeEntry).flatten

/-
The vendored hash helpers (`aws_glue_artifact/vendor/hashes.py`, not among the
sources at hand).
-/

/-- Modelled from the spec: `hashes.of_bytes(b)`, the content hash (hexadecimal
SHA-256 digest) of a byte string. -/
def hashes.of_bytes (b : List Nat) : String := sha256Hex b

/-- Modelled from the spec: the hash `hashes.of_paths(paths=[dir])` computes
for a directory — a hash of the file contents under the directory, walking the
files in sorted name order (names partake so that renames change the hash). -/
def hashes.of_paths_dir (t : List (String × List Nat)) : String :=
  sha256Hex (((sortTree t).map (fun e => strBytes e.1 ++ e.2)).flatten)

/-- Modelled from the spec: `hashes.of_paths(paths=[p])` reading the filesystem;
hashing a missing path raises, hence `none`. -/
def hashes.of_paths (fs : FS) (p : LocalPath) : Option String :=
  match FS.lookup fs p with
  | some (FSNode.dir t) => some (hashes.of_paths_dir t)
  | some (FSNode.file c) => some (sha256Hex c)
  | none => none

/-- Modelled from the spec: the vendored `build_python_lib` helper "builds the
library into the build directory" — the built copy of the source tree appears
at the target directory (the source directory must exist). -/
def build_python_lib (fs : FS) (dir_python_lib_source dir_python_lib_target : LocalPath) :
    Option FS :=
  match FS.lookup fs dir_python_lib_source with
  | some (FSNode.dir t) => some (FS.setNode fs dir_python_lib_target (FSNode.dir t))
  | _ => none

/-- Embedding of `pathlib_mate`'s `make_zip_archive(dst=..., include_dir=False)`:
write the zip archive of the directory `src` to the file `dst`. -/
def make_zip_archive (fs : FS) (src dst : LocalPath) : Option FS :=
  match FS.lookup fs src with
  | some (FSNode.dir t) => some (FS.setNode fs dst (FSNode.file (zipBytes t)))
  | _ => none

/-
The external versioned-artifact world (`versioned.api`, `s3pathlib`,
`boto_session_manager`): opaque result records, a configuration record for
`Repository`, and an explicit behaviour environment `RepoImpl` whose function
fields stand for the external methods.  Every external method may fail
(missing remote state, network failure, storage conflict); failure of a local
file read is a distinct error so that propagation stays observable.
-/

structure BotoSesManager where
  profile_id : String
  deriving DecidableEq, Repr

structure S3Path where
  bucket : String
  key : String
  deriving DecidableEq, Repr

/-- The external library's artifact record (opaque payload for the facade). -/
structure Artifact where
  name : String
  version : String
  deriving DecidableEq, Repr

inductive Err where
  | fileNotFound (p : LocalPath)
  | dirNotFound (p : LocalPath)
  | networkFailure
  | storageConflict
  deriving DecidableEq, Repr

/-- Configuration of the external `versioned.api.Repository` dataclass, as
constructed by `Base._common_post_init`. -/
structure Repository where
  aws_region : String
  s3_bucket : String
  s3_prefix_str : String
  dynamodb_table_name : String
  suffix : String
  deriving DecidableEq, Repr

/-- The `versioned.api.LATEST_VERSION` constant (the docstring of
`get_artifact_s3path` states the default version is "LATEST"). -/
def LATEST_VERSION : String := "LATEST"

/-- Behaviour environment for the external repository methods: each field maps
the full argument tuple the facade hands over to the external call's outcome. -/
structure RepoImpl where
  bootstrap : Repository → BotoSesManager → Option Nat → Option Nat → Except Err Unit
  put_artifact : Repository → String → List Nat → String → Metadata → Option Metadata →
    Except Err Artifact
  publish_artifact_version : Repository → String → Except Err Artifact
  get_artifact_s3path : Repository → String → String → Except Err S3Path

/-
The facade dataclasses of `aws_glue_artifact/model.py`.  The five configuration
fields of `Base` keep their source names, except `s3_prefix`, written
`s3_prefix_str` here.  The `_repo` field is the one `__post_init__` fills in.
Construction (`dataclass.__init__` followed by `__post_init__`) is embedded by
the `make` functions; the ambient working directory `cwd` is an explicit
argument because `.absolute()` reads it from the process.
-/

structure Base where
  aws_region : String
  s3_bucket : String
  s3_prefix_str : String
  dynamodb_table_name : String
  artifact_name : String
  _repo : Repository
  deriving DecidableEq, Repr

/-- Embedding of `Base._common_post_init`: construct the external repository
configuration from the base fields and the class-specific suffix. -/
def Base._common_post_init
    (aws_region s3_bucket s3_prefix_str dynamodb_table_name : String)
    (suffix : String) : Repository :=
  ⟨aws_region, s3_bucket, s3_prefix_str, dynamodb_table_name, suffix⟩

/-- The `repo` property of `Base`. -/
def Base.repo (b : Base) : Repository := b._repo

/-- Embedding of `Base.bootstrap`: call through to `repo.bootstrap` with the
given session and capacity units; the method body returns `None` in Python, so
the success value is `Unit`.  The facade object is returned alongside so that
frame effects are observable. -/
def Base.bootstrap (impl : RepoImpl) (b : Base) (bsm : BotoSesManager)
    (dynamodb_write_capacity_units dynamodb_read_capacity_units : Option Nat) :
    Base × Except Err Unit :=
  (b, impl.bootstrap (Base.repo b) bsm dynamodb_write_capacity_units
        dynamodb_read_capacity_units)

/-- Embedding of `Base.get_artifact_s3path`: return
`repo.get_artifact_s3path(name=artifact_name, version=version)`. -/
def Base.get_artifact_s3path (impl : RepoImpl) (b : Base) (version : String) :
    Base × Except Err S3Path :=
  (b, impl.get_artifact_s3path (Base.repo b) b.artifact_name version)

/-- The same call with the `version` parameter left at its default. -/
def Base.get_artifact_s3path_default (impl : RepoImpl) (b : Base) :
    Base × Except Err S3Path :=
  Base.get_artifact_s3path impl b LATEST_VERSION

/-- Embedding of `Base.publish_artifact_version`: return
`repo.publish_artifact_version(artifact_name)`. -/
def Base.publish_artifact_version (impl : RepoImpl) (b : Base) :
    Base × Except Err Artifact :=
  (b, impl.publish_artifact_version (Base.repo b) b.artifact_name)

/-- Embedding of lines 119-123 of `model.py` (identical shape at lines
190-194): start from the single hash entry, then, when the caller supplied a
metadata dictionary, run `dict.update` with it on top. -/
def build_final_metadata (key hash : String) (metadata : Option Metadata) : Metadata :=
  match metadata with
  | none => [(key, hash)]
  | some m => pyUpdateSingle key hash m

structure GlueETLScriptArtifact extends Base where
  path_glue_etl_script : LocalPath
  deriving DecidableEq, Repr

/-- Embedding of `GlueETLScriptArtifact` construction: the dataclass `__init__`
stores the fields, then `__post_init__` normalises the script path with
`Path(...).absolute()` and builds the repository with suffix ".py". -/
def GlueETLScriptArtifact.make
    (aws_region s3_bucket s3_prefix_str dynamodb_table_name artifact_name : String)
    (path_glue_etl_script : PathLike) (cwd : List String) : GlueETLScriptArtifact :=
  ⟨⟨aws_region, s3_bucket, s3_prefix_str, dynamodb_table_name, artifact_name,
    Base._common_post_init aws_region s3_bucket s3_prefix_str dynamodb_table_name ".py"⟩,
   LocalPath.absolute cwd (coercePath path_glue_etl_script)⟩

/-- Embedding of `GlueETLScriptArtifact.put_artifact` (lines 106-130): read the
script bytes, hash them, assemble the metadata, call `repo.put_artifact` with
content type "text/plain".  The pair returns the facade object (unchanged by
the source, which never assigns `self` fields here) next to the outcome. -/
def GlueETLScriptArtifact.put_artifact (impl : RepoImpl) (fs : FS)
    (a : GlueETLScriptArtifact) (metadata tags : Option Metadata) :
    GlueETLScriptArtifact × Except Err Artifact :=
  match FS.read_bytes fs a.path_glue_etl_script with
  | none => (a, Except.error (Err.fileNotFound a.path_glue_etl_script))
  | some content =>
    let glue_etl_script_sha256 := hashes.of_bytes content
    let final_metadata := build_final_metadata "glue_etl_script_sha256"
      glue_etl_script_sha256 metadata
    (a, impl.put_artifact a._repo a.artifact_name content "text/plain"
          final_metadata tags)

structure GluePythonLibArtifact extends Base where
  dir_glue_python_lib : LocalPath
  dir_glue_build : LocalPath
  deriving DecidableEq, Repr

/-- Embedding of `GluePythonLibArtifact` construction: store the fields, then
normalise both directories and build the repository with suffix ".zip". -/
def GluePythonLibArtifact.make
    (aws_region s3_bucket s3_prefix_str dynamodb_table_name artifact_name : String)
    (dir_glue_python_lib dir_glue_build : PathLike) (cwd : List String) :
    GluePythonLibArtifact :=
  ⟨⟨aws_region, s3_bucket, s3_prefix_str, dynamodb_table_name, artifact_name,
    Base._common_post_init aws_region s3_bucket s3_prefix_str dynamodb_table_name ".zip"⟩,
   LocalPath.absolute cwd (coercePath dir_glue_python_lib),
   LocalPath.absolute cwd (coercePath dir_glue_build)⟩

/-- The `dir_glue_python_lib_build` property: `dir_glue_build` joined with the
basename of the library directory. -/
def GluePythonLibArtifact.dir_glue_python_lib_build (a : GluePythonLibArtifact) :
    LocalPath :=
  LocalPath.joinpath a.dir_glue_build (LocalPath.basename a.dir_glue_python_lib)

/-- The `path_glue_python_lib_build_zip` property: the same name with ".zip". -/
def GluePythonLibArtifact.path_glue_python_lib_build_zip (a : GluePythonLibArtifact) :
    LocalPath :=
  LocalPath.joinpath a.dir_glue_build (LocalPath.basename a.dir_glue_python_lib ++ ".zip")

/-- The filesystem after line 179 of `model.py`: the scratch build directory
removed (with everything under it) if it existed. -/
def libStage1 (a : GluePythonLibArtifact) (fs : FS) : FS :=
  FS.removeTree fs a.dir_glue_build

/-- The filesystem after line 180: the scratch build directory recreated. -/
def libStage2 (a : GluePythonLibArtifact) (fs : FS) : FS :=
  FS.mkdir_if_not_exists (libStage1 a fs) a.dir_glue_build

/-- Embedding of `GluePythonLibArtifact.put_artifact` (lines 168-201), step by
step in source order: reset the build directory, build the library into it,
write the zip archive, hash the built directory, assemble the metadata, read
the zip bytes and call `repo.put_artifact` with content type
"application/zip".  The final filesystem is returned so that the effect order
stays observable; failures of the modelled helpers surface as errors. -/
def GluePythonLibArtifact.put_artifact (impl : RepoImpl) (fs : FS)
    (a : GluePythonLibArtifact) (metadata tags : Option Metadata) :
    GluePythonLibArtifact × FS × Except Err Artifact :=
  let fs2 := libStage2 a fs
  match build_python_lib fs2 a.dir_glue_python_lib
      (GluePythonLibArtifact.dir_glue_python_lib_build a) with
  | none => (a, fs2, Except.error (Err.dirNotFound a.dir_glue_python_lib))
  | some fs3 =>
    match make_zip_archive fs3 (GluePythonLibArtifact.dir_glue_python_lib_build a)
        (GluePythonLibArtifact.path_glue_python_lib_build_zip a) with
    | none =>
      (a, fs3, Except.error (Err.dirNotFound
        (GluePythonLibArtifact.dir_glue_python_lib_build a)))
    | some fs4 =>
      match hashes.of_paths fs4 (GluePythonLibArtifact.dir_glue_python_lib_build a) with
      | none =>
        (a, fs4, Except.error (Err.dirNotFound
          (GluePythonLibArtifact.dir_glue_python_lib_build a)))
      | some glue_python_lib_sha256 =>
        let final_metadata := build_final_metadata "glue_python_lib_sha256"
          glue_python_lib_sha256 metadata
        match FS.read_bytes fs4 (GluePythonLibArtifact.path_glue_python_lib_build_zip a) with
        | none =>
          (a, fs4, Except.error (Err.fileNotFound
            (GluePythonLibArtifact.path_glue_python_lib_build_zip a)))
        | some content =>
          (a, fs4, impl.put_artifact a._repo a.artifact_name content "application/zip"
                     final_metadata tags)

/-
Helper lemmas about the filesystem, path and dictionary models.
-/

theorem isPrefixOf_self_str (l : List String) : l.isPrefixOf l = true := by
  induction l with
  | nil => rfl
  | cons a rest ih => simp [List.isPrefixOf, ih]

theorem LocalPath.isUnder_self (p : LocalPath) : LocalPath.isUnder p p = true := by
  simp [LocalPath.isUnder, isPrefixOf_self_str]

theorem FS.lookup_setNode_self (fs : FS) (p : LocalPath) (n : FSNode) :
    FS.lookup (FS.setNode fs p n) p = some n := by
  simp [FS.setNode, FS.lookup]

theorem FS.lookup_setNode_ne (fs : FS) (p q : LocalPath) (n : FSNode) (h : p ≠ q) :
    FS.lookup (FS.setNode fs p n) q = FS.lookup fs q := by
  simp [FS.setNode, FS.lookup, h]

theorem FS.lookup_removeTree_of_under (fs : FS) (p q : LocalPath)
    (h : LocalPath.isUnder q p = true) : FS.lookup (FS.removeTree fs p) q = none := by
  induction fs with
  | nil => rfl
  | cons e rest ih =>
    by_cases he : LocalPath.isUnder e.1 p
    · simpa [FS.removeTree, he] using ih
    · have hne : e.1 ≠ q := by
        intro hq
        rw [hq] at he
        exact he h
      simpa [FS.removeTree, FS.lookup, he, hne] using ih

theorem FS.lookup_removeTree_of_not_under (fs : FS) (p q : LocalPath)
    (h : LocalPath.isUnder q p = false) :
    FS.lookup (FS.removeTree fs p) q = FS.lookup fs q := by
  induction fs with
  | nil => rfl
  | cons e rest ih =>
    by_cases he : LocalPath.isUnder e.1 p
    · have hne : e.1 ≠ q := by
        intro hq
        rw [hq] at he
        rw [he] at h
        cases h
      simpa [FS.removeTree, FS.lookup, he, hne] using ih
    · by_cases hq : e.1 = q
      · simp [FS.removeTree, FS.lookup, he, hq, h]
      · simpa [FS.removeTree, FS.lookup, he, hq] using ih

theorem append_last_inj (l : List String) (x y : String) (h : l ++ [x] = l ++ [y]) :
    x = y := by
  induction l with
  | nil => simpa using h
  | cons a rest ih =>
    injection h with _ h2
    exact ih h2

theorem str_ne_append_zip (s : String) : s ≠ s ++ ".zip" := by
  intro h
  have hl := congrArg String.length h
  rw [String.length_append] at hl
  have : (".zip" : String).length = 4 := rfl
  omega

/-- The built directory and the zip file are distinct paths. -/
theorem build_dir_ne_zip_path (a : GluePythonLibArtifact) :
    GluePythonLibArtifact.dir_glue_python_lib_build a ≠
      GluePythonLibArtifact.path_glue_python_lib_build_zip a := by
  intro h
  have hparts := congrArg LocalPath.parts h
  simp only [GluePythonLibArtifact.dir_glue_python_lib_build,
    GluePythonLibArtifact.path_glue_python_lib_build_zip, LocalPath.joinpath] at hparts
  exact str_ne_append_zip _ (append_last_inj _ _ _ hparts)

/-- The dictionary built at lines 119-123 / 190-194 maps the reserved key to
the caller's value when the caller supplied one, to the computed hash
otherwise. -/
theorem alookup_build_final_metadata_self (key h : String) (m : Metadata) :
    alookup key (build_final_metadata key h (some m)) =
      some ((alookup key m).getD h) := by
  simp [build_final_metadata, pyUpdateSingle, alookup]

theorem alookup_dropKey_other (key : String) (m : Metadata) (k : String) (hk : k ≠ key) :
    alookup k (dropKey key m) = alookup k m := by
  induction m with
  | nil => rfl
  | cons e rest ih =>
    have hks : key ≠ k := fun hx => hk hx.symm
    by_cases h1 : e.1 = key
    · simpa [dropKey, alookup, h1, hks] using ih
    · by_cases h2 : e.1 = k
      · simp [dropKey, alookup, h1, h2, hk]
      · simpa [dropKey, alookup, h1, h2] using ih

/-- For a key other than the reserved one, the assembled dictionary answers
exactly as the caller's dictionary. -/
theorem alookup_build_final_metadata_other (key h : String) (m : Metadata) (k : String)
    (hk : k ≠ key) :
    alookup k (build_final_metadata key h (some m)) = alookup k m := by
  have hne : key ≠ k := fun hx => hk hx.symm
  simp only [build_final_metadata, pyUpdateSingle, alookup, hne, if_false]
  exact alookup_dropKey_other key m k hk

/-
The run of `GluePythonLibArtifact.put_artifact` on a filesystem holding the
library source directory, established once and reused below.
-/

/-- The filesystem at the moment the zip bytes are read back (line 197): build
directory reset, built tree at `dir_glue_python_lib_build`, zip archive at
`path_glue_python_lib_build_zip`. -/
def libFS4 (a : GluePythonLibArtifact) (fs : FS) (t : List (String × List Nat)) : FS :=
  FS.setNode
    (FS.setNode (libStage2 a fs) (GluePythonLibArtifact.dir_glue_python_lib_build a)
      (FSNode.dir t))
    (GluePythonLibArtifact.path_glue_python_lib_build_zip a)
    (FSNode.file (zipBytes t))

theorem libStage2_lookup_src (a : GluePythonLibArtifact) (fs : FS)
    (t : List (String × List Nat))
    (hsrc : FS.lookup fs a.dir_glue_python_lib = some (FSNode.dir t))
    (hsep : LocalPath.isUnder a.dir_glue_python_lib a.dir_glue_build = false) :
    FS.lookup (libStage2 a fs) a.dir_glue_python_lib = some (FSNode.dir t) := by
  have h1 : FS.lookup (libStage1 a fs) a.dir_glue_python_lib = some (FSNode.dir t) := by
    rw [libStage1, FS.lookup_removeTree_of_not_under fs a.dir_glue_build
      a.dir_glue_python_lib hsep]
    exact hsrc
  have hb : FS.lookup (libStage1 a fs) a.dir_glue_build = none :=
    FS.lookup_removeTree_of_under fs a.dir_glue_build a.dir_glue_build
      (LocalPath.isUnder_self a.dir_glue_build)
  have hne : a.dir_glue_build ≠ a.dir_glue_python_lib := by
    intro hq
    rw [← hq] at hsep
    rw [LocalPath.isUnder_self a.dir_glue_build] at hsep
    cases hsep
  rw [libStage2, FS.mkdir_if_not_exists, hb,
    FS.lookup_setNode_ne (libStage1 a fs) a.dir_glue_build a.dir_glue_python_lib
      (FSNode.dir []) hne]
  exact h1

/-- On a filesystem holding the library source directory (with source tree `t`)
anywhere not under the scratch build directory, `put_artifact` runs the whole
pipeline: it uploads the zip archive bytes of the built tree with content type
"application/zip" and the metadata assembled from the directory hash, and the
facade object comes back unchanged next to the filesystem `libFS4`. -/
theorem libPut_run (impl : RepoImpl) (fs : FS) (a : GluePythonLibArtifact)
    (metadata tags : Option Metadata) (t : List (String × List Nat))
    (hsrc : FS.lookup fs a.dir_glue_python_lib = some (FSNode.dir t))
    (hsep : LocalPath.isUnder a.dir_glue_python_lib a.dir_glue_build = false) :
    GluePythonLibArtifact.put_artifact impl fs a metadata tags =
      (a, libFS4 a fs t,
       impl.put_artifact a._repo a.artifact_name (zipBytes t) "application/zip"
         (build_final_metadata "glue_python_lib_sha256" (hashes.of_paths_dir t) metadata)
         tags) := by
  have h2 := libStage2_lookup_src a fs t hsrc hsep
  have hb : build_python_lib (libStage2 a fs) a.dir_glue_python_lib
      (GluePythonLibArtifact.dir_glue_python_lib_build a) =
      some (FS.setNode (libStage2 a fs)
        (GluePythonLibArtifact.dir_glue_python_lib_build a) (FSNode.dir t)) := by
    rw [build_python_lib, h2]
  have hzt : FS.lookup
      (FS.setNode (libStage2 a fs) (GluePythonLibArtifact.dir_glue_python_lib_build a)
        (FSNode.dir t))
      (GluePythonLibArtifact.dir_glue_python_lib_build a) = some (FSNode.dir t) :=
    FS.lookup_setNode_self _ _ _
  have hz : make_zip_archive
      (FS.setNode (libStage2 a fs) (GluePythonLibArtifact.dir_glue_python_lib_build a)
        (FSNode.dir t))
      (GluePythonLibArtifact.dir_glue_python_lib_build a)
      (GluePythonLibArtifact.path_glue_python_lib_build_zip a) = some (libFS4 a fs t) := by
    rw [make_zip_archive, hzt]
    rfl
  have hne : GluePythonLibArtifact.path_glue_python_lib_build_zip a ≠
      GluePythonLibArtifact.dir_glue_python_lib_build a :=
    fun hx => build_dir_ne_zip_path a hx.symm
  have h4t : FS.lookup (libFS4 a fs t)
      (GluePythonLibArtifact.dir_glue_python_lib_build a) = some (FSNode.dir t) := by
    rw [libFS4, FS.lookup_setNode_ne _ _ _ _ hne]
    exact hzt
  have hh : hashes.of_paths (libFS4 a fs t)
      (GluePythonLibArtifact.dir_glue_python_lib_build a) =
      some (hashes.of_paths_dir t) := by
    rw [hashes.of_paths, h4t]
  have hr : FS.read_bytes (libFS4 a fs t)
      (GluePythonLibArtifact.path_glue_python_lib_build_zip a) = some (zipBytes t) := by
    rw [FS.read_bytes, libFS4, FS.lookup_setNode_self]
  rw [GluePythonLibArtifact.put_artifact]
  simp only [hb, hz, hh, hr]

/-
Observable slices of the two `put_artifact` pipelines, for concrete evaluation:
the metadata dictionary and the content bytes each facade hands to the store.
-/

/-- The metadata dictionary `GlueETLScriptArtifact.put_artifact` hands to the
external store (lines 117-123), `none` when the script file is missing. -/
def etl_final_metadata (fs : FS) (a : GlueETLScriptArtifact)
    (metadata : Option Metadata) : Option Metadata :=
  (FS.read_bytes fs a.path_glue_etl_script).map
    (fun content =>
      build_final_metadata "glue_etl_script_sha256" (hashes.of_bytes content) metadata)

/-- The run of the `GluePythonLibArtifact.put_artifact` pipeline up to the
external call: final filesystem, the hash written into the metadata, and the
content bytes handed to the store. -/
def lib_run (fs : FS) (a : GluePythonLibArtifact) :
    Option (FS × String × List Nat) :=
  let fs2 := libStage2 a fs
  match build_python_lib fs2 a.dir_glue_python_lib
      (GluePythonLibArtifact.dir_glue_python_lib_build a) with
  | none => none
  | some fs3 =>
    match make_zip_archive fs3 (GluePythonLibArtifact.dir_glue_python_lib_build a)
        (GluePythonLibArtifact.path_glue_python_lib_build_zip a) with
    | none => none
    | some fs4 =>
      match hashes.of_paths fs4 (GluePythonLibArtifact.dir_glue_python_lib_build a),
          FS.read_bytes fs4 (GluePythonLibArtifact.path_glue_python_lib_build_zip a) with
      | some h, some content => some (fs4, h, content)
      | _, _ => none

/-- The hash value `GluePythonLibArtifact.put_artifact` writes under the
reserved metadata key. -/
def lib_hash (fs : FS) (a : GluePythonLibArtifact) : Option String :=
  (lib_run fs a).map (fun r => r.2.1)

/-- The content bytes `GluePythonLibArtifact.put_artifact` hands to the store. -/
def lib_uploaded_content (fs : FS) (a : GluePythonLibArtifact) : Option (List Nat) :=
  (lib_run fs a).map (fun r => r.2.2)

/-- The slice agrees with the pipeline: under the same hypotheses as
`libPut_run`, the hash recorded in the metadata is the directory hash of the
built tree and the uploaded content is the zip archive of the built tree. -/
theorem lib_run_eq (fs : FS) (a : GluePythonLibArtifact) (t : List (String × List Nat))
    (hsrc : FS.lookup fs a.dir_glue_python_lib = some (FSNode.dir t))
    (hsep : LocalPath.isUnder a.dir_glue_python_lib a.dir_glue_build = false) :
    lib_run fs a = some (libFS4 a fs t, hashes.of_paths_dir t, zipBytes t) := by
  have h2 := libStage2_lookup_src a fs t hsrc hsep
  have hb : build_python_lib (libStage2 a fs) a.dir_glue_python_lib
      (GluePythonLibArtifact.dir_glue_python_lib_build a) =
      some (FS.setNode (libStage2 a fs)
        (GluePythonLibArtifact.dir_glue_python_lib_build a) (FSNode.dir t)) := by
    rw [build_python_lib, h2]
  have hzt : FS.lookup
      (FS.setNode (libStage2 a fs) (GluePythonLibArtifact.dir_glue_python_lib_build a)
        (FSNode.dir t))
      (GluePythonLibArtifact.dir_glue_python_lib_build a) = some (FSNode.dir t) :=
    FS.lookup_setNode_self _ _ _
  have hz : make_zip_archive
      (FS.setNode (libStage2 a fs) (GluePythonLibArtifact.dir_glue_python_lib_build a)
        (FSNode.dir t))
      (GluePythonLibArtifact.dir_glue_python_lib_build a)
      (GluePythonLibArtifact.path_glue_python_lib_build_zip a) = some (libFS4 a fs t) := by
    rw [make_zip_archive, hzt]
    rfl
  have hne : GluePythonLibArtifact.path_glue_python_lib_build_zip a ≠
      GluePythonLibArtifact.dir_glue_python_lib_build a :=
    fun hx => build_dir_ne_zip_path a hx.symm
  have h4t : FS.lookup (libFS4 a fs t)
      (GluePythonLibArtifact.dir_glue_python_lib_build a) = some (FSNode.dir t) := by
    rw [libFS4, FS.lookup_setNode_ne _ _ _ _ hne]
    exact hzt
  have hh : hashes.of_paths (libFS4 a fs t)
      (GluePythonLibArtifact.dir_glue_python_lib_build a) =
      some (hashes.of_paths_dir t) := by
    rw [hashes.of_paths, h4t]
  have hr : FS.read_bytes (libFS4 a fs t)
      (GluePythonLibArtifact.path_glue_python_lib_build_zip a) = some (zipBytes t) := by
    rw [FS.read_bytes, libFS4, FS.lookup_setNode_self]
  rw [lib_run]
  simp only [hb, hz, hh, hr]

/-
Concrete fixtures used by witnesses and counterexamples.
-/

def cwd0 : List String := ["home", "user"]

def etl0 : GlueETLScriptArtifact :=
  GlueETLScriptArtifact.make "us-east-1" "my-bucket" "artifacts" "my-table" "my-etl"
    (PathLike.str "/glue/etl_script.py") cwd0

def fsETL : FS := [(⟨true, ["glue", "etl_script.py"]⟩, FSNode.file [104, 105])]

def lib0 : GluePythonLibArtifact :=
  GluePythonLibArtifact.make "us-east-1" "my-bucket" "artifacts" "my-table" "my-lib"
    (PathLike.str "/src/mylib") (PathLike.str "/build") cwd0

def tree0 : List (String × List Nat) := [("a.py", [1, 2, 3])]

def fsLib : FS := [(⟨true, ["src", "mylib"]⟩, FSNode.dir tree0)]

/-- A behaviour environment where every external call fails with a network
failure. -/
def implNet : RepoImpl :=
  ⟨fun _ _ _ _ => Except.error Err.networkFailure,
   fun _ _ _ _ _ _ => Except.error Err.networkFailure,
   fun _ _ => Except.error Err.networkFailure,
   fun _ _ _ => Except.error Err.networkFailure⟩

/-- A behaviour environment where every external call succeeds. -/
def implOk : RepoImpl :=
  ⟨fun _ _ _ _ => Except.ok (),
   fun _ name _ _ _ _ => Except.ok ⟨name, "1"⟩,
   fun _ name => Except.ok ⟨name, "2"⟩,
   fun r name v => Except.ok ⟨r.s3_bucket, name ++ v⟩⟩

/-
Frame helpers shared by several theorems: neither `put_artifact` body ever
assigns a field of `self`, so the facade object comes back unchanged on every
branch.
-/

theorem etl_put_fst (impl : RepoImpl) (fs : FS) (e : GlueETLScriptArtifact)
    (metadata tags : Option Metadata) :
    (GlueETLScriptArtifact.put_artifact impl fs e metadata tags).1 = e := by
  rw [GlueETLScriptArtifact.put_artifact]
  cases FS.read_bytes fs e.path_glue_etl_script <;> rfl

theorem lib_put_fst (impl : RepoImpl) (fs : FS) (l : GluePythonLibArtifact)
    (metadata tags : Option Metadata) :
    (GluePythonLibArtifact.put_artifact impl fs l metadata tags).1 = l := by
  simp only [GluePythonLibArtifact.put_artifact]
  repeat' split
  all_goals rfl

/-- Auxiliary fact for C9: `.absolute()` always yields an absolute path. -/
theorem absolute_isAbs (cwd : List String) (p : LocalPath) :
    (LocalPath.absolute cwd p).isAbs = true := by
  cases h : p.isAbs <;> simp [LocalPath.absolute, h]

/-- C9: after construction, regardless of whether each path argument came in
as a string or as a path object, `path_glue_etl_script` (for the ETL class)
and `dir_glue_python_lib` and `dir_glue_build` (for the library class) hold
absolute paths, before any operation runs. -/
theorem C9_paths_absolute
    (aws_region s3_bucket s3_prefix_str dynamodb_table_name artifact_name : String)
    (p q r : PathLike) (cwd : List String) :
    (GlueETLScriptArtifact.make aws_region s3_bucket s3_prefix_str dynamodb_table_name
        artifact_name p cwd).path_glue_etl_script.isAbs = true ∧
    (GluePythonLibArtifact.make aws_region s3_bucket s3_prefix_str dynamodb_table_name
        artifact_name q r cwd).dir_glue_python_lib.isAbs = true ∧
    (GluePythonLibArtifact.make aws_region s3_bucket s3_prefix_str dynamodb_table_name
        artifact_name q r cwd).dir_glue_build.isAbs = true :=
  ⟨absolute_isAbs cwd _, absolute_isAbs cwd _, absolute_isAbs cwd _⟩

/-- C6: no public operation mutates the facade object: `bootstrap`,
`get_artifact_s3path` (with or without an explicit version),
`publish_artifact_version` and both `put_artifact` variants return the object
with every field — configuration, paths, repository reference — unchanged. -/
theorem C6_no_mutation (impl : RepoImpl) (b : Base) (bsm : BotoSesManager)
    (w r : Option Nat) (v : String) (fs : FS) (e : GlueETLScriptArtifact)
    (l : GluePythonLibArtifact) (metadata tags : Option Metadata) :
    (Base.bootstrap impl b bsm w r).1 = b ∧
    (Base.get_artifact_s3path impl b v).1 = b ∧
    (Base.get_artifact_s3path_default impl b).1 = b ∧
    (Base.publish_artifact_version impl b).1 = b ∧
    (GlueETLScriptArtifact.put_artifact impl fs e metadata tags).1 = e ∧
    (GluePythonLibArtifact.put_artifact impl fs l metadata tags).1 = l :=
  ⟨rfl, rfl, rfl, rfl, etl_put_fst impl fs e metadata tags,
   lib_put_fst impl fs l metadata tags⟩

/-
Spec-side definitions for C3, written from the spec sentence: every operation
is a pure call-through to the corresponding external repository method on the
configured artifact name.
-/

def spec_bootstrap (impl : RepoImpl) (b : Base) (bsm : BotoSesManager)
    (w r : Option Nat) : Except Err Unit :=
  impl.bootstrap b._repo bsm w r

def spec_get_artifact_s3path (impl : RepoImpl) (b : Base) (version : String) :
    Except Err S3Path :=
  impl.get_artifact_s3path b._repo b.artifact_name version

def spec_publish_artifact_version (impl : RepoImpl) (b : Base) : Except Err Artifact :=
  impl.publish_artifact_version b._repo b.artifact_name

/-- C3: each facade operation delegates: `bootstrap` calls `repo.bootstrap`
with the given session and capacity units; `get_artifact_s3path` returns
`repo.get_artifact_s3path(name=artifact_name, version=version)` with the
version defaulting to the LATEST version; `publish_artifact_version` returns
`repo.publish_artifact_version(artifact_name)`; both `put_artifact` methods
return the value of `repo.put_artifact`. -/
theorem C3_call_through (impl : RepoImpl) (b : Base) (bsm : BotoSesManager)
    (w r : Option Nat) (v : String) (fse fsl : FS) (e : GlueETLScriptArtifact)
    (metadata tags : Option Metadata) (content : List Nat)
    (l : GluePythonLibArtifact) (t : List (String × List Nat))
    (hread : FS.read_bytes fse e.path_glue_etl_script = some content)
    (hsrc : FS.lookup fsl l.dir_glue_python_lib = some (FSNode.dir t))
    (hsep : LocalPath.isUnder l.dir_glue_python_lib l.dir_glue_build = false) :
    (Base.bootstrap impl b bsm w r).2 = spec_bootstrap impl b bsm w r ∧
    (Base.get_artifact_s3path impl b v).2 = spec_get_artifact_s3path impl b v ∧
    Base.get_artifact_s3path_default impl b = Base.get_artifact_s3path impl b LATEST_VERSION ∧
    LATEST_VERSION = "LATEST" ∧
    (Base.publish_artifact_version impl b).2 = spec_publish_artifact_version impl b ∧
    (GlueETLScriptArtifact.put_artifact impl fse e metadata tags).2 =
      impl.put_artifact e._repo e.artifact_name content "text/plain"
        (build_final_metadata "glue_etl_script_sha256" (hashes.of_bytes content) metadata)
        tags ∧
    (GluePythonLibArtifact.put_artifact impl fsl l metadata tags).2.2 =
      impl.put_artifact l._repo l.artifact_name (zipBytes t) "application/zip"
        (build_final_metadata "glue_python_lib_sha256" (hashes.of_paths_dir t) metadata)
        tags := by
  refine ⟨rfl, rfl, rfl, rfl, rfl, ?_, ?_⟩
  · rw [GlueETLScriptArtifact.put_artifact, hread]
  · rw [libPut_run impl fsl l metadata tags t hsrc hsep]

/-- Witness for C3 at concrete inputs: the hypotheses (script file present,
library source directory present outside the build directory) hold on the
fixtures and the call-through equations follow. -/
theorem C3_call_through_witness :
    (GlueETLScriptArtifact.put_artifact implOk fsETL etl0 none none).2 =
      implOk.put_artifact etl0._repo etl0.artifact_name [104, 105] "text/plain"
        (build_final_metadata "glue_etl_script_sha256" (hashes.of_bytes [104, 105]) none)
        none ∧
    (GluePythonLibArtifact.put_artifact implOk fsLib lib0 none none).2.2 =
      implOk.put_artifact lib0._repo lib0.artifact_name (zipBytes tree0) "application/zip"
        (build_final_metadata "glue_python_lib_sha256" (hashes.of_paths_dir tree0) none)
        none := by
  have h := C3_call_through implOk etl0.toBase ⟨"default"⟩ none none "v1" fsETL fsLib
    etl0 none none [104, 105] lib0 tree0 (by decide) (by decide) (by decide)
  exact ⟨h.2.2.2.2.2.1, h.2.2.2.2.2.2⟩

/-
C7: the two classes and their repository configurations.
-/

def etl7 : GlueETLScriptArtifact :=
  GlueETLScriptArtifact.make "r1" "b1" "p1" "t1" "n1" (PathLike.str "/a.py") []

def lib7 : GluePythonLibArtifact :=
  GluePythonLibArtifact.make "r1" "b1" "p1" "t1" "n1" (PathLike.str "/lib")
    (PathLike.str "/build") []

/-- C7 counterexample: two instances of the two classes constructed with the
same region, bucket, prefix and table name do not hold identically configured
external repository objects — the configurations differ (in the suffix). -/
theorem C7_counterexample : etl7._repo ≠ lib7._repo := by decide

/-- C7 (amended): the two classes are parallel thin facades, but each builds
its own Repository; for equal region, bucket, prefix and table name the two
configurations agree on those four fields and differ exactly in the suffix,
".py" for the ETL script class and ".zip" for the python library class. -/
theorem C7_repo_configurations
    (aws_region s3_bucket s3_prefix_str dynamodb_table_name etl_name lib_name : String)
    (p q r : PathLike) (cwd : List String) :
    (GlueETLScriptArtifact.make aws_region s3_bucket s3_prefix_str dynamodb_table_name
        etl_name p cwd)._repo =
      Base._common_post_init aws_region s3_bucket s3_prefix_str dynamodb_table_name ".py" ∧
    (GluePythonLibArtifact.make aws_region s3_bucket s3_prefix_str dynamodb_table_name
        lib_name q r cwd)._repo =
      Base._common_post_init aws_region s3_bucket s3_prefix_str dynamodb_table_name
        ".zip" ∧
    (Base._common_post_init aws_region s3_bucket s3_prefix_str dynamodb_table_name
        ".py").aws_region =
      (Base._common_post_init aws_region s3_bucket s3_prefix_str dynamodb_table_name
        ".zip").aws_region ∧
    (Base._common_post_init aws_region s3_bucket s3_prefix_str dynamodb_table_name
        ".py").s3_bucket =
      (Base._common_post_init aws_region s3_bucket s3_prefix_str dynamodb_table_name
        ".zip").s3_bucket ∧
    (Base._common_post_init aws_region s3_bucket s3_prefix_str dynamodb_table_name
        ".py").s3_prefix_str =
      (Base._common_post_init aws_region s3_bucket s3_prefix_str dynamodb_table_name
        ".zip").s3_prefix_str ∧
    (Base._common_post_init aws_region s3_bucket s3_prefix_str dynamodb_table_name
        ".py").dynamodb_table_name =
      (Base._common_post_init aws_region s3_bucket s3_prefix_str dynamodb_table_name
        ".zip").dynamodb_table_name ∧
    (Base._common_post_init aws_region s3_bucket s3_prefix_str dynamodb_table_name
        ".py").suffix = ".py" ∧
    (Base._common_post_init aws_region s3_bucket s3_prefix_str dynamodb_table_name
        ".zip").suffix = ".zip" :=
  ⟨rfl, rfl, rfl, rfl, rfl, rfl, rfl, rfl⟩

/-
C8: the configuration fields carry no validation at all.
-/

def etlEmpty : GlueETLScriptArtifact :=
  GlueETLScriptArtifact.make "" "" "" "" "" (PathLike.str "/x.py") []

/-- C8 counterexample: construction succeeds with all five configuration
strings empty and stores the empty strings — so construction does not
establish the non-empty-string property the claim asserts. -/
theorem C8_counterexample :
    etlEmpty.aws_region = "" ∧ etlEmpty.s3_bucket = "" ∧ etlEmpty.s3_prefix_str = "" ∧
    etlEmpty.dynamodb_table_name = "" ∧ etlEmpty.artifact_name = "" :=
  ⟨rfl, rfl, rfl, rfl, rfl⟩

/-- C8 (amended): the five configuration fields carry no invariant at all and
no validation is imposed on them: construction accepts arbitrary strings —
empty ones included — and stores them verbatim in both classes, and the
operations leave them unchanged. -/
theorem C8_fields_unvalidated
    (aws_region s3_bucket s3_prefix_str dynamodb_table_name artifact_name : String)
    (p q r : PathLike) (cwd : List String) (impl : RepoImpl) (b : Base)
    (bsm : BotoSesManager) (w rc : Option Nat) (fs : FS)
    (e : GlueETLScriptArtifact) (l : GluePythonLibArtifact)
    (metadata tags : Option Metadata) :
    (GlueETLScriptArtifact.make aws_region s3_bucket s3_prefix_str dynamodb_table_name
        artifact_name p cwd).aws_region = aws_region ∧
    (GlueETLScriptArtifact.make aws_region s3_bucket s3_prefix_str dynamodb_table_name
        artifact_name p cwd).s3_bucket = s3_bucket ∧
    (GlueETLScriptArtifact.make aws_region s3_bucket s3_prefix_str dynamodb_table_name
        artifact_name p cwd).s3_prefix_str = s3_prefix_str ∧
    (GlueETLScriptArtifact.make aws_region s3_bucket s3_prefix_str dynamodb_table_name
        artifact_name p cwd).dynamodb_table_name = dynamodb_table_name ∧
    (GlueETLScriptArtifact.make aws_region s3_bucket s3_prefix_str dynamodb_table_name
        artifact_name p cwd).artifact_name = artifact_name ∧
    (GluePythonLibArtifact.make aws_region s3_bucket s3_prefix_str dynamodb_table_name
        artifact_name q r cwd).aws_region = aws_region ∧
    (GluePythonLibArtifact.make aws_region s3_bucket s3_prefix_str dynamodb_table_name
        artifact_name q r cwd).s3_bucket = s3_bucket ∧
    (GluePythonLibArtifact.make aws_region s3_bucket s3_prefix_str dynamodb_table_name
        artifact_name q r cwd).s3_prefix_str = s3_prefix_str ∧
    (GluePythonLibArtifact.make aws_region s3_bucket s3_prefix_str dynamodb_table_name
        artifact_name q r cwd).dynamodb_table_name = dynamodb_table_name ∧
    (GluePythonLibArtifact.make aws_region s3_bucket s3_prefix_str dynamodb_table_name
        artifact_name q r cwd).artifact_name = artifact_name ∧
    (Base.bootstrap impl b bsm w rc).1 = b ∧
    (GlueETLScriptArtifact.put_artifact impl fs e metadata tags).1 = e ∧
    (GluePythonLibArtifact.put_artifact impl fs l metadata tags).1 = l :=
  ⟨rfl, rfl, rfl, rfl, rfl, rfl, rfl, rfl, rfl, rfl, rfl,
   etl_put_fst impl fs e metadata tags, lib_put_fst impl fs l metadata tags⟩

/-
C1: the metadata handed over by `GlueETLScriptArtifact.put_artifact`.
-/

/-- C1 counterexample: the script file holds bytes [104, 105]; the caller's
metadata already contains the reserved key with value "x".  The dictionary
handed to the store keeps the caller's "x" — not the computed SHA-256 of the
script bytes — so it is not the caller's mapping augmented with that hash
under the reserved key. -/
theorem C1_counterexample :
    FS.read_bytes fsETL etl0.path_glue_etl_script = some [104, 105] ∧
    etl_final_metadata fsETL etl0 (some [("glue_etl_script_sha256", "x")]) =
      some [("glue_etl_script_sha256", "x")] ∧
    hashes.of_bytes [104, 105] ≠ "x" := by
  refine ⟨by decide, by decide, by decide⟩

/-- C1 (amended): `put_artifact` reads the script bytes, computes their
SHA-256 hash, and hands the store the dictionary that starts from the hash
entry under "glue_etl_script_sha256" and is then updated with the caller's
mapping, so on the reserved key the caller's value takes precedence: with no
caller metadata the result is just the hash entry; the reserved key maps to
the hash exactly when the caller's mapping does not bind it, and every other
key answers as in the caller's mapping. -/
theorem C1_put_metadata (impl : RepoImpl) (fs : FS) (e : GlueETLScriptArtifact)
    (metadata tags : Option Metadata) (content : List Nat) (m : Metadata) (k : String)
    (hread : FS.read_bytes fs e.path_glue_etl_script = some content) :
    GlueETLScriptArtifact.put_artifact impl fs e metadata tags =
      (e, impl.put_artifact e._repo e.artifact_name content "text/plain"
            (build_final_metadata "glue_etl_script_sha256" (hashes.of_bytes content)
              metadata) tags) ∧
    etl_final_metadata fs e metadata =
      some (build_final_metadata "glue_etl_script_sha256" (hashes.of_bytes content)
        metadata) ∧
    build_final_metadata "glue_etl_script_sha256" (hashes.of_bytes content) none =
      [("glue_etl_script_sha256", hashes.of_bytes content)] ∧
    alookup "glue_etl_script_sha256"
        (build_final_metadata "glue_etl_script_sha256" (hashes.of_bytes content)
          (some m)) =
      some ((alookup "glue_etl_script_sha256" m).getD (hashes.of_bytes content)) ∧
    (k ≠ "glue_etl_script_sha256" →
      alookup k (build_final_metadata "glue_etl_script_sha256" (hashes.of_bytes content)
          (some m)) =
        alookup k m) := by
  refine ⟨?_, ?_, rfl, alookup_build_final_metadata_self _ _ m, ?_⟩
  · rw [GlueETLScriptArtifact.put_artifact, hread]
  · rw [etl_final_metadata, hread]
    rfl
  · intro hk
    exact alookup_build_final_metadata_other _ _ m k hk

/-- Witness for C1 (amended) on the fixtures: the script file is present, the
caller's mapping binds only another key, and the handed dictionary keeps both
the hash entry and the caller's entry. -/
theorem C1_put_metadata_witness :
    GlueETLScriptArtifact.put_artifact implOk fsETL etl0 (some [("a", "b")]) none =
      (etl0, implOk.put_artifact etl0._repo etl0.artifact_name [104, 105] "text/plain"
        (build_final_metadata "glue_etl_script_sha256" (hashes.of_bytes [104, 105])
          (some [("a", "b")])) none) ∧
    alookup "a" (build_final_metadata "glue_etl_script_sha256"
        (hashes.of_bytes [104, 105]) (some [("a", "b")])) =
      alookup "a" [("a", "b")] := by
  have h := C1_put_metadata implOk fsETL etl0 (some [("a", "b")]) none [104, 105]
    [("a", "b")] "a" (by decide)
  exact ⟨h.1, h.2.2.2.2 (by decide)⟩

/-- C10: when the caller's mapping contains the reserved hash key, its value
replaces the computed hash in the dictionary handed to the store (the user
mapping is merged on top of the hash entry); entries under other keys pass
through unchanged; when the caller does not bind the reserved key the hash
entry survives next to every caller entry; and both `put_artifact` methods
hand the store exactly this merged dictionary (the caller's mapping itself,
a value in a pure embedding, is left untouched). -/
theorem C10_user_metadata_precedence (impl : RepoImpl) (fse fsl : FS)
    (e : GlueETLScriptArtifact) (l : GluePythonLibArtifact) (tags : Option Metadata)
    (content : List Nat) (t : List (String × List Nat)) (m : Metadata) (v k : String)
    (hread : FS.read_bytes fse e.path_glue_etl_script = some content)
    (hsrc : FS.lookup fsl l.dir_glue_python_lib = some (FSNode.dir t))
    (hsep : LocalPath.isUnder l.dir_glue_python_lib l.dir_glue_build = false) :
    (GlueETLScriptArtifact.put_artifact impl fse e (some m) tags).2 =
      impl.put_artifact e._repo e.artifact_name content "text/plain"
        (build_final_metadata "glue_etl_script_sha256" (hashes.of_bytes content)
          (some m)) tags ∧
    (GluePythonLibArtifact.put_artifact impl fsl l (some m) tags).2.2 =
      impl.put_artifact l._repo l.artifact_name (zipBytes t) "application/zip"
        (build_final_metadata "glue_python_lib_sha256" (hashes.of_paths_dir t)
          (some m)) tags ∧
    (∀ key h, alookup key m = some v →
      alookup key (build_final_metadata key h (some m)) = some v) ∧
    (∀ key h, k ≠ key →
      alookup k (build_final_metadata key h (some m)) = alookup k m) ∧
    (∀ key h, alookup key m = none →
      alookup key (build_final_metadata key h (some m)) = some h) := by
  refine ⟨?_, ?_, ?_, ?_, ?_⟩
  · rw [GlueETLScriptArtifact.put_artifact, hread]
  · rw [libPut_run impl fsl l (some m) tags t hsrc hsep]
  · intro key h hv
    rw [alookup_build_final_metadata_self, hv]
    rfl
  · intro key h hk
    exact alookup_build_final_metadata_other key h m k hk
  · intro key h hnone
    rw [alookup_build_final_metadata_self, hnone]
    rfl

/-- Witness for C10 on the fixtures: the caller's mapping binds the reserved
ETL key to "x", and the dictionary the ETL `put_artifact` hands over answers
"x" on that key. -/
theorem C10_user_metadata_precedence_witness :
    (GlueETLScriptArtifact.put_artifact implOk fsETL etl0
        (some [("glue_etl_script_sha256", "x")]) none).2 =
      implOk.put_artifact etl0._repo etl0.artifact_name [104, 105] "text/plain"
        (build_final_metadata "glue_etl_script_sha256" (hashes.of_bytes [104, 105])
          (some [("glue_etl_script_sha256", "x")])) none ∧
    alookup "glue_etl_script_sha256"
        (build_final_metadata "glue_etl_script_sha256" (hashes.of_bytes [104, 105])
          (some [("glue_etl_script_sha256", "x")])) =
      some "x" := by
  have h := C10_user_metadata_precedence implOk fsETL fsLib etl0 lib0 none [104, 105]
    tree0 [("glue_etl_script_sha256", "x")] "x" "a" (by decide) (by decide) (by decide)
  exact ⟨h.1, h.2.2.1 "glue_etl_script_sha256" (hashes.of_bytes [104, 105]) (by decide)⟩

/-- C4: failures are propagated unchanged from the external calls — the facade
neither catches, wraps nor replaces them — and a local read failure surfaces
as the underlying file error; in every case the facade object's fields are
unchanged when the error escapes. -/
theorem C4_error_propagation (impl : RepoImpl) (b : Base) (bsm : BotoSesManager)
    (w r : Option Nat) (v : String) (fse fsl : FS) (e : GlueETLScriptArtifact)
    (l : GluePythonLibArtifact) (metadata tags : Option Metadata)
    (content : List Nat) (t : List (String × List Nat)) (err : Err) :
    (impl.bootstrap b._repo bsm w r = Except.error err →
      Base.bootstrap impl b bsm w r = (b, Except.error err)) ∧
    (impl.get_artifact_s3path b._repo b.artifact_name v = Except.error err →
      Base.get_artifact_s3path impl b v = (b, Except.error err)) ∧
    (impl.publish_artifact_version b._repo b.artifact_name = Except.error err →
      Base.publish_artifact_version impl b = (b, Except.error err)) ∧
    (FS.read_bytes fse e.path_glue_etl_script = none →
      GlueETLScriptArtifact.put_artifact impl fse e metadata tags =
        (e, Except.error (Err.fileNotFound e.path_glue_etl_script))) ∧
    (FS.read_bytes fse e.path_glue_etl_script = some content →
      impl.put_artifact e._repo e.artifact_name content "text/plain"
          (build_final_metadata "glue_etl_script_sha256" (hashes.of_bytes content)
            metadata) tags =
        Except.error err →
      GlueETLScriptArtifact.put_artifact impl fse e metadata tags =
        (e, Except.error err)) ∧
    (FS.lookup fsl l.dir_glue_python_lib = some (FSNode.dir t) →
      LocalPath.isUnder l.dir_glue_python_lib l.dir_glue_build = false →
      impl.put_artifact l._repo l.artifact_name (zipBytes t) "application/zip"
          (build_final_metadata "glue_python_lib_sha256" (hashes.of_paths_dir t)
            metadata) tags =
        Except.error err →
      (GluePythonLibArtifact.put_artifact impl fsl l metadata tags).2.2 =
        Except.error err ∧
      (GluePythonLibArtifact.put_artifact impl fsl l metadata tags).1 = l) := by
  refine ⟨fun h => ?_, fun h => ?_, fun h => ?_, fun h => ?_, fun h1 h2 => ?_,
    fun h1 h2 h3 => ?_⟩
  · rw [Base.bootstrap, Base.repo, h]
  · rw [Base.get_artifact_s3path, Base.repo, h]
  · rw [Base.publish_artifact_version, Base.repo, h]
  · rw [GlueETLScriptArtifact.put_artifact, h]
  · rw [GlueETLScriptArtifact.put_artifact, h1]
    simp only [h2]
  · rw [libPut_run impl fsl l metadata tags t h1 h2]
    exact ⟨h3, rfl⟩

/-- Witness for C4 on the fixtures: with an environment whose external calls
all fail with a network failure, every facade operation surfaces exactly that
error, a missing script file surfaces as its file error, and the facade
objects come back unchanged. -/
theorem C4_error_propagation_witness :
    Base.bootstrap implNet etl0.toBase ⟨"default"⟩ none none =
      (etl0.toBase, Except.error Err.networkFailure) ∧
    GlueETLScriptArtifact.put_artifact implNet fsLib etl0 none none =
      (etl0, Except.error (Err.fileNotFound etl0.path_glue_etl_script)) ∧
    GlueETLScriptArtifact.put_artifact implNet fsETL etl0 none none =
      (etl0, Except.error Err.networkFailure) ∧
    (GluePythonLibArtifact.put_artifact implNet fsLib lib0 none none).2.2 =
      Except.error Err.networkFailure ∧
    (GluePythonLibArtifact.put_artifact implNet fsLib lib0 none none).1 = lib0 := by
  have h := C4_error_propagation implNet etl0.toBase ⟨"default"⟩ none none "v1"
    fsETL fsLib etl0 lib0 none none [104, 105] tree0 Err.networkFailure
  have h' := C4_error_propagation implNet etl0.toBase ⟨"default"⟩ none none "v1"
    fsLib fsLib etl0 lib0 none none [104, 105] tree0 Err.networkFailure
  have hlib := h.2.2.2.2.2 (by decide) (by decide) rfl
  exact ⟨h.1 rfl, h'.2.2.2.1 (by decide), h.2.2.2.2.1 (by decide) rfl, hlib.1, hlib.2⟩

/-- C5: `GluePythonLibArtifact.put_artifact` first resets the scratch build
directory — removing it and everything under it, then recreating it — then
builds the library into the build directory, then writes the zip archive
there, and only then, on the filesystem `libFS4` in which the zip archive
exists, reads that archive back and uploads exactly those bytes. -/
theorem C5_build_order (impl : RepoImpl) (fs : FS) (l : GluePythonLibArtifact)
    (metadata tags : Option Metadata) (t : List (String × List Nat)) (q : LocalPath)
    (hsrc : FS.lookup fs l.dir_glue_python_lib = some (FSNode.dir t))
    (hsep : LocalPath.isUnder l.dir_glue_python_lib l.dir_glue_build = false) :
    (LocalPath.isUnder q l.dir_glue_build = true →
      FS.lookup (libStage1 l fs) q = none) ∧
    FS.lookup (libStage2 l fs) l.dir_glue_build = some (FSNode.dir []) ∧
    build_python_lib (libStage2 l fs) l.dir_glue_python_lib
        (GluePythonLibArtifact.dir_glue_python_lib_build l) =
      some (FS.setNode (libStage2 l fs)
        (GluePythonLibArtifact.dir_glue_python_lib_build l) (FSNode.dir t)) ∧
    FS.lookup (libFS4 l fs t) (GluePythonLibArtifact.path_glue_python_lib_build_zip l) =
      some (FSNode.file (zipBytes t)) ∧
    FS.read_bytes (libFS4 l fs t)
        (GluePythonLibArtifact.path_glue_python_lib_build_zip l) =
      some (zipBytes t) ∧
    GluePythonLibArtifact.put_artifact impl fs l metadata tags =
      (l, libFS4 l fs t,
       impl.put_artifact l._repo l.artifact_name (zipBytes t) "application/zip"
         (build_final_metadata "glue_python_lib_sha256" (hashes.of_paths_dir t)
           metadata) tags) := by
  refine ⟨?_, ?_, ?_, ?_, ?_, libPut_run impl fs l metadata tags t hsrc hsep⟩
  · intro hq
    exact FS.lookup_removeTree_of_under fs l.dir_glue_build q hq
  · have hb : FS.lookup (libStage1 l fs) l.dir_glue_build = none :=
      FS.lookup_removeTree_of_under fs l.dir_glue_build l.dir_glue_build
        (LocalPath.isUnder_self l.dir_glue_build)
    rw [libStage2, FS.mkdir_if_not_exists, hb]
    exact FS.lookup_setNode_self _ _ _
  · rw [build_python_lib, libStage2_lookup_src l fs t hsrc hsep]
  · rw [libFS4]
    exact FS.lookup_setNode_self _ _ _
  · rw [FS.read_bytes, libFS4, FS.lookup_setNode_self]

/-- Witness for C5 on the fixtures: the library source directory is present
outside the build directory, the reset empties the build directory (checked at
the build directory path itself), and the pipeline uploads the zip bytes read
back from the freshly written archive. -/
theorem C5_build_order_witness :
    FS.lookup (libStage1 lib0 fsLib) lib0.dir_glue_build = none ∧
    FS.lookup (libStage2 lib0 fsLib) lib0.dir_glue_build = some (FSNode.dir []) ∧
    FS.read_bytes (libFS4 lib0 fsLib tree0)
        (GluePythonLibArtifact.path_glue_python_lib_build_zip lib0) =
      some (zipBytes tree0) ∧
    GluePythonLibArtifact.put_artifact implOk fsLib lib0 none none =
      (lib0, libFS4 lib0 fsLib tree0,
       implOk.put_artifact lib0._repo lib0.artifact_name (zipBytes tree0)
         "application/zip"
         (build_final_metadata "glue_python_lib_sha256" (hashes.of_paths_dir tree0)
           none) none) := by
  have h := C5_build_order implOk fsLib lib0 none none tree0 lib0.dir_glue_build
    (by decide) (by decide)
  exact ⟨h.1 (by decide), h.2.1, h.2.2.2.2.1, h.2.2.2.2.2⟩

/-- C2 counterexample: on the fixtures, the hash written under
"glue_python_lib_sha256" is the directory hash of the built tree, the content
handed to the store is the zip archive bytes of that tree, and hashing the
uploaded zip bytes gives a different digest — so the metadata hash is not
computed from the content passed to the store. -/
theorem C2_counterexample :
    lib_hash fsLib lib0 = some (hashes.of_paths_dir tree0) ∧
    lib_uploaded_content fsLib lib0 = some (zipBytes tree0) ∧
    hashes.of_paths_dir tree0 ≠ hashes.of_bytes (zipBytes tree0) := by
  have h := lib_run_eq fsLib lib0 tree0 (by decide) (by decide)
  refine ⟨?_, ?_, by decide⟩
  · rw [lib_hash, h]
    rfl
  · rw [lib_uploaded_content, h]
    rfl

/-- C2 (amended): the hash `put_artifact` places under "glue_python_lib_sha256"
is computed by `hashes.of_paths` from the built library directory
(`dir_glue_python_lib_build`), while the content handed to the external store
is the zip archive bytes of that same built tree: hash and content both derive
from the built tree, but the hash is not a hash of the zip bytes themselves. -/
theorem C2_lib_hash_source (impl : RepoImpl) (fs : FS) (l : GluePythonLibArtifact)
    (metadata tags : Option Metadata) (t : List (String × List Nat))
    (hsrc : FS.lookup fs l.dir_glue_python_lib = some (FSNode.dir t))
    (hsep : LocalPath.isUnder l.dir_glue_python_lib l.dir_glue_build = false) :
    lib_hash fs l = some (hashes.of_paths_dir t) ∧
    lib_uploaded_content fs l = some (zipBytes t) ∧
    hashes.of_paths (libFS4 l fs t) (GluePythonLibArtifact.dir_glue_python_lib_build l) =
      some (hashes.of_paths_dir t) ∧
    (GluePythonLibArtifact.put_artifact impl fs l metadata tags).2.2 =
      impl.put_artifact l._repo l.artifact_name (zipBytes t) "application/zip"
        (build_final_metadata "glue_python_lib_sha256" (hashes.of_paths_dir t)
          metadata) tags := by
  have h := lib_run_eq fs l t hsrc hsep
  refine ⟨?_, ?_, ?_, ?_⟩
  · rw [lib_hash, h]
    rfl
  · rw [lib_uploaded_content, h]
    rfl
  · have hne : GluePythonLibArtifact.path_glue_python_lib_build_zip l ≠
        GluePythonLibArtifact.dir_glue_python_lib_build l :=
      fun hx => build_dir_ne_zip_path l hx.symm
    have h4t : FS.lookup (libFS4 l fs t)
        (GluePythonLibArtifact.dir_glue_python_lib_build l) = some (FSNode.dir t) := by
      rw [libFS4, FS.lookup_setNode_ne _ _ _ _ hne]
      exact FS.lookup_setNode_self _ _ _
    rw [hashes.of_paths, h4t]
  · rw [libPut_run impl fs l metadata tags t hsrc hsep]

/-- Witness for C2 (amended) on the fixtures. -/
theorem C2_lib_hash_source_witness :
    lib_hash fsLib lib0 = some (hashes.of_paths_dir tree0) ∧
    (GluePythonLibArtifact.put_artifact implOk fsLib lib0 none none).2.2 =
      implOk.put_artifact lib0._repo lib0.artifact_name (zipBytes tree0)
        "application/zip"
        (build_final_metadata "glue_python_lib_sha256" (hashes.of_paths_dir tree0)
          none) none := by
  have h := C2_lib_hash_source implOk fsLib lib0 none none tree0 (by decide) (by decide)
  exact ⟨h.1, h.2.2.2⟩
